import Mathlib

/-!
Verification development for the SupabaseAuthWithSSR2 repository.

Shallow embedding of the two behavioural cores of the codebase:
the Route Guard middleware (src/middleware.ts) and the Conversation
Renderer chat components (src/app/chat/components/Chat.tsx,
src/unnamed/part_001, the EnhancedChatComponent in src/app/layout.tsx).
External SDK calls (Supabase auth, the AI streaming hook, the clipboard)
are modelled by their observable inputs and outputs, exactly as the
source consumes them.
-/

namespace MDEvidence

/-! Section: Route Guard (src/middleware.ts) -/

/-- A cookie as the middleware sees it: a name and a value. Options on
outbound cookies are opaque to the guard and elided. -/
structure Cookie where
  name : String
  value : String
deriving Repr, DecidableEq

/-- The resolved user returned by the identity provider. The guard only
tests it for presence, so an opaque id suffices. -/
structure AuthUser where
  id : String
deriving Repr, DecidableEq

/-- A URL as used by the middleware: the code builds
new URL("/signin", request.url), which keeps the request origin, replaces
the path and carries no query, so we model origin, path and query. -/
structure Url where
  origin : String
  path : String
  query : Option String
deriving Repr, DecidableEq

/-- The inbound request: its full URL (request.nextUrl.pathname is the
path component) and its cookie jar. -/
structure NextRequest where
  url : Url
  cookies : List Cookie
deriving Repr, DecidableEq

/-- The observable outcome of supabase.auth.getUser() together with the
cookies the SDK pushed through the setAll callback: a possibly refreshed
session user and the refreshed cookies to mirror onto the response. -/
structure AuthResult where
  user : Option AuthUser
  cookiesToSet : List Cookie
deriving Repr, DecidableEq

/-- A middleware response: NextResponse.next() carrying whatever cookies
setAll mirrored onto it, a NextResponse.redirect, or a plain Response with
a status and body (used by the earlier middleware revision on error). -/
inductive GuardResponse where
  | next (cookies : List Cookie)
  | redirect (url : Url)
  | plain (status : Nat) (body : String)
deriving Repr, DecidableEq

/-- The routing matcher of src/middleware.ts: the negative lookahead
excludes paths whose first segment after the leading slash starts with one
of these alternatives. -/
def matcherExclusions : List String :=
  ["_next/static", "_next/image", "favicon.ico", "api/", "fonts/",
   "sitemap.xml", "robots.txt", ".well-known/"]

/-- Prefix test on strings, by character list: the semantics of the
JavaScript String.prototype.startsWith calls in the middleware. -/
def strStartsWith (s pre : String) : Bool :=
  pre.data.isPrefixOf s.data

/-- Whether the routing matcher excludes a pathname, so the guard never
runs for it. Derived from the config.matcher regular expression in
src/middleware.ts. -/
def matcherExcluded (pathname : String) : Bool :=
  let rest := match pathname.data with
    | '/' :: r => r
    | r => r
  matcherExclusions.any (fun e => e.data.isPrefixOf rest)

/-- The middleware body of src/middleware.ts, after the getUser call has
resolved to auth: response is NextResponse.next() (rebuilt with the
refreshed cookies when setAll ran), session is the resolved user, and a
request to a path starting with /protected or /chat without a session is
redirected to /signin on the request origin; every other request gets the
pass-through response. -/
def middleware (req : NextRequest) (auth : AuthResult) : GuardResponse :=
  let response := GuardResponse.next auth.cookiesToSet
  let session := auth.user
  let currentRoute := req.url.path
  if (strStartsWith currentRoute "/protected" || strStartsWith currentRoute "/chat")
      && session.isNone then
    GuardResponse.redirect { origin := req.url.origin, path := "/signin", query := none }
  else
    response

/-- The identity-provider call can reject. The final revision of
src/middleware.ts awaits supabase.auth.getUser() with no try/catch around
it, so a rejection propagates out of the middleware; this runs the guard
under that fallible call. -/
def middlewareRun (req : NextRequest) (getUserResult : Except String AuthResult) :
    Except String GuardResponse :=
  match getUserResult with
  | .error e => .error e
  | .ok auth => .ok (middleware req auth)

/-- The earlier middleware revision (src/unnamed/part_000): the whole body
is wrapped in try/catch; a throw inside the body is caught and answered
with a plain 500 response, otherwise the request passes through. -/
def middlewareLegacy (body : Except String Unit) : GuardResponse :=
  match body with
  | .ok _ => GuardResponse.next []
  | .error _ => GuardResponse.plain 500 "Middleware failed"

/-! Section: Conversation Renderer: data model

From the @ai-sdk/react Message shape as the chat components consume it:
a role, a content string, an ordered list of typed parts and an optional
attachment list (message.experimental_attachments). -/

/-- Message role as tested by the components (message.role === "user"). -/
inductive Role where
  | user
  | assistant
deriving Repr, DecidableEq

/-- A tool invocation record carried by a tool-invocation part: the
components read toolInvocation.toolName and toolInvocation.toolCallId and
hand the whole record to the chosen renderer. -/
structure ToolInvocation where
  toolName : String
  toolCallId : String
  payload : String
deriving Repr, DecidableEq

/-- The tagged part union as the components discriminate it by
part.type: text, reasoning, source, tool-invocation; unknown holds any
other tag the stream might carry. -/
inductive Part where
  | text (content : String)
  | reasoning (details : String)
  | source (src : String)
  | toolInvocation (inv : ToolInvocation)
  | unknown (tag : String)
deriving Repr, DecidableEq

/-- An attachment reference (message.experimental_attachments entries):
the renderer uses only the name. -/
structure Attachment where
  name : String
deriving Repr, DecidableEq

/-- One chat message as the components consume it. -/
structure Message where
  id : String
  role : Role
  content : String
  parts : List Part
  attachments : List Attachment
deriving Repr, DecidableEq

/-- Tag test for part.type === "text". -/
def isText : Part → Bool
  | .text _ => true
  | _ => false

/-- Tag test for part.type === "reasoning". -/
def isReasoning : Part → Bool
  | .reasoning _ => true
  | _ => false

/-- Tag test for part.type === "source". -/
def isSource : Part → Bool
  | .source _ => true
  | _ => false

/-- Tag test for part.type === "tool-invocation". -/
def isToolInvocation : Part → Bool
  | .toolInvocation _ => true
  | _ => false

/-- Payload of a text part (the filtered lists only ever hold matching
tags, so the default is never reached). -/
def partText : Part → String
  | .text s => s
  | _ => ""

/-- Payload of a reasoning part. -/
def partDetails : Part → String
  | .reasoning d => d
  | _ => ""

/-- Payload of a source part. -/
def partSource : Part → String
  | .source s => s
  | _ => ""

/-- The tool-invocation record of a part, when it carries one. -/
def partTool : Part → Option ToolInvocation
  | .toolInvocation i => some i
  | _ => none

/-! Section: Part partition (src/unnamed/part_001 lines 450-460 and the
EnhancedChatComponent of src/app/layout.tsx lines 294-300) -/

/-- textParts: message.parts filtered on type === "text". -/
def textParts (m : Message) : List Part :=
  m.parts.filter isText

/-- reasoningParts: message.parts filtered on type === "reasoning"; the
source applies this filter for every role and suppresses the bucket only
at render time. -/
def reasoningParts (m : Message) : List Part :=
  m.parts.filter isReasoning

/-- sourceParts: message.parts filtered on type === "source". -/
def sourceParts (m : Message) : List Part :=
  m.parts.filter isSource

/-- toolInvocationParts: forced to the empty list for user messages, the
tool-invocation filter otherwise (the !isUserMessage ? filter : []
conditional in both components). -/
def toolInvocationParts (m : Message) : List Part :=
  if m.role = Role.user then []
  else m.parts.filter isToolInvocation

/-! Section: Tool dispatch and views -/

/-- The sub-view a recognised tool invocation is dispatched to. -/
inductive ToolView where
  | documentSearch (inv : ToolInvocation)
  | websiteSearch (inv : ToolInvocation)
deriving Repr, DecidableEq

/-- The switch (toolName) dispatch in both components: searchUserDocument
to DocumentSearchTool, websiteSearchTool to WebsiteSearchTool, and the
default case returns null. -/
def dispatchTool (inv : ToolInvocation) : Option ToolView :=
  if inv.toolName = "searchUserDocument" then some (ToolView.documentSearch inv)
  else if inv.toolName = "websiteSearchTool" then some (ToolView.websiteSearch inv)
  else none

/-- The body of the tool accordion: map dispatch over the invocations and
drop the null renders. -/
def renderToolInvocations (l : List ToolInvocation) : List ToolView :=
  l.filterMap dispatchTool

/-- One rendered element of a message card body, in document order. -/
inductive View where
  | textView (content : String)
  | reasoningView (details : String)
  | sourceSection (sources : List String)
  | attachmentView (name : String)
  | toolSection (tools : List ToolView)
deriving Repr, DecidableEq

/-- Whether a rendered element is a reasoning view. -/
def viewIsReasoning : View → Bool
  | .reasoningView _ => true
  | _ => false

/-- Whether a rendered element is the tool-invocation section. -/
def viewIsToolSection : View → Bool
  | .toolSection _ => true
  | _ => false

/-- The text block run: textParts mapped to markdown views, rendered for
every role. -/
def renderTextViews (m : Message) : List View :=
  (textParts m).map (fun p => View.textView (partText p))

/-- The reasoning run: guarded by !isUserMessage in the JSX, then
reasoningParts mapped to ReasoningContent views. -/
def renderReasoningViews (m : Message) : List View :=
  if m.role = Role.user then []
  else (reasoningParts m).map (fun p => View.reasoningView (partDetails p))

/-- The sources box: rendered when the message is not from the user and
sourceParts is non-empty, as a single SourceView over the source payloads. -/
def renderSourceViews (m : Message) : List View :=
  if m.role ≠ Role.user ∧ sourceParts m ≠ [] then
    [View.sourceSection ((sourceParts m).map partSource)]
  else []

/-- The attachments block: rendered when the message is from the user and
experimental_attachments is non-empty, one row per attachment. -/
def renderAttachmentViews (m : Message) : List View :=
  if m.role = Role.user ∧ m.attachments ≠ [] then
    m.attachments.map (fun a => View.attachmentView a.name)
  else []

/-- The tool accordion: a single collapsible section rendered when
hasToolInvocations, holding the dispatched tool renders. -/
def renderToolViews (m : Message) : List View :=
  if toolInvocationParts m ≠ [] then
    [View.toolSection (renderToolInvocations ((toolInvocationParts m).filterMap partTool))]
  else []

/-- The card body of one message, transcribed from the CardContent JSX of
src/unnamed/part_001 lines 523-602 and src/app/layout.tsx lines 371-447:
text parts, then reasoning (assistant only), then the sources box
(assistant only, when present), then attachments (user only, when
present), then the single tool accordion. -/
def renderMessage (m : Message) : List View :=
  ((textParts m).map (fun p => View.textView (partText p)))
  ++ (if m.role = Role.user then []
      else (reasoningParts m).map (fun p => View.reasoningView (partDetails p)))
  ++ (if m.role ≠ Role.user ∧ sourceParts m ≠ [] then
        [View.sourceSection ((sourceParts m).map partSource)]
      else [])
  ++ (if m.role = Role.user ∧ m.attachments ≠ [] then
        m.attachments.map (fun a => View.attachmentView a.name)
      else [])
  ++ (if toolInvocationParts m ≠ [] then
        [View.toolSection (renderToolInvocations ((toolInvocationParts m).filterMap partTool))]
      else [])

/-- The whole message list view: messages.map over renderMessage. -/
def renderMessages (l : List Message) : List (List View) :=
  l.map renderMessage

/-! Section: Endpoint selection (getApiEndpoint in
src/app/chat/components/Chat.tsx lines 100-109 and src/unnamed/part_001
lines 101-110) -/

/-- The switch (optimisticModelType) over endpoint identifiers. -/
def getApiEndpoint (modelType : String) : String :=
  if modelType = "perplex" then "/api/perplexity"
  else if modelType = "website" then "/api/websitechat"
  else "/api/chat"

/-- A submitted chat request: useChat is configured with
api: getApiEndpoint(), so a submission posts the message list to the
selected endpoint. -/
structure ChatRequest where
  endpoint : String
  messages : List Message
deriving Repr, DecidableEq

/-- Submitting the next message under a modelType setting. -/
def submitMessage (modelType : String) (msgs : List Message) : ChatRequest :=
  { endpoint := getApiEndpoint modelType, messages := msgs }

/-! Section: Optimistic settings (handleModelTypeChange and handleOptionChange,
src/app/chat/components/Chat.tsx lines 85-97 and src/unnamed/part_001
lines 86-98) -/

/-- The observable steps a settings handler performs, in program order. -/
inductive SettingsEvent where
  | setLocalModelType (v : String)
  | setLocalOption (v : String)
  | persistCall (modelType : String) (option : String)
  | persistResolved (success : Bool)
deriving Repr, DecidableEq

/-- handleModelTypeChange(newValue): inside the transition, first
setOptimisticModelType(newValue), then await setModelSettings(newValue,
optimisticOption). -/
def handleModelTypeChange (newValue : String) (currentOption : String) :
    List SettingsEvent :=
  [SettingsEvent.setLocalModelType newValue,
   SettingsEvent.persistCall newValue currentOption]

/-- handleOptionChange(newValue): first setOptimisticOption(newValue),
then await setModelSettings(optimisticModelType, newValue). -/
def handleOptionChange (newValue : String) (currentModelType : String) :
    List SettingsEvent :=
  [SettingsEvent.setLocalOption newValue,
   SettingsEvent.persistCall currentModelType newValue]

/-- The local optimistic settings pair the UI reads. -/
structure LocalSettings where
  modelType : String
  option : String
deriving Repr, DecidableEq

/-- Effect of each settings event on the local optimistic state: the two
local setters write it; the persist call and its resolution never touch it
(the components contain no rollback code). -/
def applySettingsEvent (s : LocalSettings) : SettingsEvent → LocalSettings
  | .setLocalModelType v => { s with modelType := v }
  | .setLocalOption v => { s with option := v }
  | .persistCall _ _ => s
  | .persistResolved _ => s

/-! Section: Copy to clipboard (handleCopy, src/app/chat/components/Chat.tsx
lines 443-450 and src/app/layout.tsx lines 302-306) -/

/-- The component state touched by handleCopy: the clipboard written by
navigator.clipboard.writeText, the single component-wide isCopied
boolean, and the pending setTimeout fire times (absolute, in ms). -/
structure CopyState where
  clipboard : Option String
  isCopied : Bool
  timers : List Nat
deriving Repr, DecidableEq

/-- The fixed revert delay of the Chat.tsx handler:
setTimeout(() => setIsCopied(false), 1000). -/
def copyDelayMs : Nat := 1000

/-- handleCopy(content) at time now: write content to the clipboard, set
isCopied, and schedule the revert at now + copyDelayMs. Nothing cancels
earlier timers. -/
def handleCopy (now : Nat) (content : String) (s : CopyState) : CopyState :=
  { clipboard := some content
    isCopied := true
    timers := s.timers ++ [now + copyDelayMs] }

/-- Other user actions available during the revert window. None of the
component handlers (theme toggle, sidebar toggle, typing) reads or writes
the clipboard, isCopied, or the pending timers; only copy does. -/
inductive UserAction where
  | copy (content : String)
  | toggleTheme
  | toggleSidebar
  | typeInput (s : String)
deriving Repr, DecidableEq

/-- Apply one user action at the given time to the copy-related state. -/
def applyUserAction (now : Nat) (s : CopyState) : UserAction → CopyState
  | .copy content => handleCopy now content s
  | .toggleTheme => s
  | .toggleSidebar => s
  | .typeInput _ => s

/-- The event loop firing due timeouts at time now: every scheduled
callback is setIsCopied(false), so any due timer resets the indicator and
is removed from the pending list. -/
def fireTimers (now : Nat) (s : CopyState) : CopyState :=
  if s.timers.any (fun t => t ≤ now) then
    { s with isCopied := false
             timers := s.timers.filter (fun t => ¬ t ≤ now) }
  else s

/-- Run a window of timestamped user actions: before each action the
event loop fires whatever timers are due, then the action applies. -/
def runWindow (s : CopyState) (actions : List (Nat × UserAction)) : CopyState :=
  actions.foldl (fun st p => applyUserAction p.1 (fireTimers p.1 st) p.2) s

/-- The indicator a message card copy button shows: the JSX renders
isCopied ? CheckCircle : Copy, reading the one shared boolean whatever the
message is. -/
def copyIndicator (s : CopyState) (_m : Message) : Bool :=
  s.isCopied

/-- The indicator column over a message list: user messages render no
copy button (the button sits under !isUserMessage), assistant messages
show the shared indicator. -/
def messageIndicators (s : CopyState) (msgs : List Message) : List (Option Bool) :=
  msgs.map (fun m => if m.role = Role.assistant then some s.isCopied else none)

/-! Section: Input submission guards (src/app/chat/components/Chat.tsx:
onSubmit lines 216-222, the Textarea onKeyDown lines 543-550, and the
submit button lines 561-568) -/

/-- The ECMAScript WhiteSpace and LineTerminator code points removed by
String.prototype.trim. -/
def jsWhitespaceChars : List Char :=
  [' ', '\t', '\n', '\x0b', '\x0c', '\r',
   Char.ofNat 0xa0, Char.ofNat 0x1680, Char.ofNat 0x2000, Char.ofNat 0x2001,
   Char.ofNat 0x2002, Char.ofNat 0x2003, Char.ofNat 0x2004, Char.ofNat 0x2005,
   Char.ofNat 0x2006, Char.ofNat 0x2007, Char.ofNat 0x2008, Char.ofNat 0x2009,
   Char.ofNat 0x200a, Char.ofNat 0x2028, Char.ofNat 0x2029, Char.ofNat 0x202f,
   Char.ofNat 0x205f, Char.ofNat 0x3000, Char.ofNat 0xfeff]

/-- Whether a character is trimmed by the JavaScript trim. -/
def jsIsWhitespace (c : Char) : Bool :=
  jsWhitespaceChars.contains c

/-- input.trim(): strip leading and trailing JavaScript whitespace. -/
def jsTrim (s : String) : String :=
  String.mk (((s.toList.dropWhile jsIsWhitespace).reverse.dropWhile
    jsIsWhitespace).reverse)

/-- The observable effects of the submission handlers. -/
inductive SubmitEffect where
  | preventDefault
  | hideWelcome
  | streamSubmit
deriving Repr, DecidableEq

/-- onSubmit(e): e.preventDefault(); then only when input.trim() is
truthy, hide the welcome screen and call handleSubmit (the stream
submission). -/
def onSubmit (input : String) : List SubmitEffect :=
  SubmitEffect.preventDefault ::
    (if jsTrim input ≠ "" then
      [SubmitEffect.hideWelcome, SubmitEffect.streamSubmit]
    else [])

/-- The keyboard event fields the Textarea handler reads. -/
structure KeyEvent where
  key : String
  shiftKey : Bool
deriving Repr, DecidableEq

/-- The Textarea onKeyDown handler: on Enter without shift it prevents
the default and, only when input.trim() is truthy, forwards to onSubmit. -/
def onKeyDown (input : String) (e : KeyEvent) : List SubmitEffect :=
  if e.key = "Enter" ∧ e.shiftKey = false then
    SubmitEffect.preventDefault ::
      (if jsTrim input ≠ "" then onSubmit input else [])
  else []

/-- The submit button disabled state: disabled={!input.trim() || isLoading}. -/
def sendButtonDisabled (input : String) (isLoading : Bool) : Bool :=
  (decide (jsTrim input = "")) || isLoading

/-! Section: helper lemmas shared by the claim theorems -/

/-- Filtering a list twice with the same predicate equals filtering once. -/
theorem filter_idem {α : Type} (p : α → Bool) (l : List α) :
    (l.filter p).filter p = l.filter p := by
  induction l with
  | nil => rfl
  | cons a t ih =>
    by_cases hpa : p a = true
    · simp [List.filter_cons, hpa, ih]
    · simp [List.filter_cons, hpa, ih]

/-- Unfolding one step of a window run. -/
theorem runWindow_cons (s : CopyState) (a : Nat × UserAction)
    (rest : List (Nat × UserAction)) :
    runWindow s (a :: rest) =
      runWindow (applyUserAction a.1 (fireTimers a.1 s) a.2) rest := rfl

/-- A pending timer strictly later than every action time in the window
is still pending after the window runs: firing removes only due timers,
and no user action ever cancels a timer. -/
theorem timer_survives (T : Nat) (actions : List (Nat × UserAction))
    (h : ∀ p ∈ actions, p.1 < T) (s : CopyState) (hT : T ∈ s.timers) :
    T ∈ (runWindow s actions).timers := by
  induction actions generalizing s with
  | nil => exact hT
  | cons a rest ih =>
    rw [runWindow_cons]
    apply ih (fun p hp => h p (List.mem_cons_of_mem a hp))
    have ha : a.1 < T := (h a (List.mem_cons_self a rest))
    have h1 : T ∈ (fireTimers a.1 s).timers := by
      unfold fireTimers
      split
      · apply List.mem_filter.mpr
        refine ⟨hT, ?_⟩
        simp
        omega
      · exact hT
    cases a.2 with
    | copy content =>
      simp only [applyUserAction, handleCopy]
      exact List.mem_append_left _ h1
    | toggleTheme => exact h1
    | toggleSidebar => exact h1
    | typeInput str => exact h1

/-- An all-whitespace input trims to the empty string. -/
theorem jsTrim_blank (input : String)
    (h : input.toList.all jsIsWhitespace = true) :
    jsTrim input = "" := by
  have h1 : input.data.dropWhile jsIsWhitespace = [] := by
    apply List.dropWhile_eq_nil_iff.mpr
    intro x hx
    exact (List.all_eq_true.mp h) x hx
  show String.mk (((input.data.dropWhile jsIsWhitespace).reverse.dropWhile
    jsIsWhitespace).reverse) = ""
  rw [h1]
  rfl

/-- The card body of a user message reduces to its text views followed by
its attachment rows: every other run is suppressed for the user role. -/
theorem renderMessage_user (m : Message) (h : m.role = Role.user) :
    renderMessage m =
      ((textParts m).map (fun p => View.textView (partText p)))
      ++ (if m.attachments = [] then []
          else m.attachments.map (fun a => View.attachmentView a.name)) := by
  have htool : toolInvocationParts m = [] := by
    simp [toolInvocationParts, h]
  by_cases ha : m.attachments = []
  · simp [renderMessage, h, htool, ha]
  · simp [renderMessage, h, htool, ha]

/-! Section: the claim theorems -/

/-- Claim C1: for every request whose path starts with /protected or
/chat and is not excluded by the routing matcher, the guard redirects to
/signin on the request origin, with no return-url state, when no session
resolves, and passes the possibly cookie-refreshed response through when a
session resolves; every other path passes through regardless of session. -/
theorem c1_route_guard (req : NextRequest) (auth : AuthResult)
    (_hmatch : matcherExcluded req.url.path = false) :
    ((strStartsWith req.url.path "/protected" || strStartsWith req.url.path "/chat") = true →
        (auth.user = none →
          middleware req auth =
            GuardResponse.redirect
              { origin := req.url.origin, path := "/signin", query := none })
      ∧ (∀ u, auth.user = some u →
          middleware req auth = GuardResponse.next auth.cookiesToSet))
    ∧ ((strStartsWith req.url.path "/protected" || strStartsWith req.url.path "/chat") = false →
        middleware req auth = GuardResponse.next auth.cookiesToSet) := by
  unfold middleware
  constructor
  · intro hp
    constructor
    · intro hu
      simp [hp, hu]
    · intro u hu
      simp [hp, hu]
  · intro hp
    simp [hp]

/-- Witness for C1 at a concrete unauthenticated /chat request. -/
theorem c1_route_guard_witness :
    matcherExcluded "/chat/abc" = false
    ∧ middleware
        { url := { origin := "https://example.com", path := "/chat/abc", query := none },
          cookies := [] }
        { user := none, cookiesToSet := [] } =
      GuardResponse.redirect
        { origin := "https://example.com", path := "/signin", query := none } := by
  refine ⟨by decide, ?_⟩
  exact ((c1_route_guard
    { url := { origin := "https://example.com", path := "/chat/abc", query := none },
      cookies := [] }
    { user := none, cookiesToSet := [] } (by decide)).1 (by decide)).1 rfl

/-- Claim C5 (code bug): the final revision of the middleware has no
try/catch, so a rejected identity-provider call propagates out of the
guard uncaught, while the earlier revision answers a plain 500. Evaluated
at the failing input: a /chat request whose getUser call rejects. -/
theorem c5_provider_throw_propagates :
    middlewareRun
      { url := { origin := "https://example.com", path := "/chat", query := none },
        cookies := [] }
      (Except.error "provider network failure") =
      Except.error "provider network failure"
    ∧ middlewareLegacy (Except.error "provider network failure") =
        GuardResponse.plain 500 "Middleware failed" :=
  ⟨rfl, rfl⟩

/-- Claim C2: endpoint selection is a pure function of modelType, with
perplex and website mapped to their endpoints and every other value
falling back to /api/chat; a submission posts to the selected endpoint. -/
theorem c2_endpoint_selection :
    getApiEndpoint "perplex" = "/api/perplexity"
    ∧ getApiEndpoint "website" = "/api/websitechat"
    ∧ (∀ m : String, m ≠ "perplex" → m ≠ "website" → getApiEndpoint m = "/api/chat")
    ∧ (∀ (m : String) (msgs : List Message),
        (submitMessage m msgs).endpoint = getApiEndpoint m) := by
  refine ⟨rfl, rfl, ?_, fun m msgs => rfl⟩
  intro m h1 h2
  simp [getApiEndpoint, h1, h2]

/-- Witness for C2 at an unknown modelType value. -/
theorem c2_endpoint_selection_witness :
    ("gpt-4" ≠ "perplex") ∧ getApiEndpoint "gpt-4" = "/api/chat" :=
  ⟨by decide, c2_endpoint_selection.2.2.1 "gpt-4" (by decide) (by decide)⟩

/-- Claim C3 counterexample: the partition step does not force the
reasoning bucket empty for user messages; a user message carrying a
reasoning part keeps it in the reasoning bucket. -/
theorem c3_user_reasoning_bucket_not_forced_empty :
    ({ id := "u1", role := Role.user, content := "hi",
       parts := [Part.reasoning "chain"], attachments := [] } : Message).role = Role.user
    ∧ reasoningParts
        { id := "u1", role := Role.user, content := "hi",
          parts := [Part.reasoning "chain"], attachments := [] } =
        [Part.reasoning "chain"]
    ∧ reasoningParts
        { id := "u1", role := Role.user, content := "hi",
          parts := [Part.reasoning "chain"], attachments := [] } ≠ [] := by
  refine ⟨rfl, rfl, by decide⟩

/-- Claim C3 amended: for user-role messages the partition forces only
the tool-invocation bucket empty; the reasoning bucket is filtered from
the data unchanged, but the renderer suppresses reasoning for user
messages, so user-role messages never display reasoning or
tool-invocation content. -/
theorem c3_user_messages_display_no_reasoning_or_tools (m : Message)
    (h : m.role = Role.user) :
    toolInvocationParts m = []
    ∧ (renderMessage m).all
        (fun v => !(viewIsReasoning v) && !(viewIsToolSection v)) = true := by
  have htool : toolInvocationParts m = [] := by
    simp [toolInvocationParts, h]
  refine ⟨htool, ?_⟩
  rw [renderMessage_user m h]
  apply List.all_eq_true.mpr
  intro v hv
  rcases List.mem_append.mp hv with hv | hv
  · rcases List.mem_map.mp hv with ⟨p, hp, rfl⟩
    rfl
  · by_cases ha : m.attachments = []
    · rw [if_pos ha] at hv
      cases hv
    · rw [if_neg ha] at hv
      rcases List.mem_map.mp hv with ⟨a, ha2, rfl⟩
      rfl

/-- Witness for the amended C3 at a user message that carries reasoning,
tool-invocation and attachment data. -/
theorem c3_user_messages_display_witness :
    ({ id := "u2", role := Role.user, content := "hi",
       parts := [Part.text "hello", Part.reasoning "chain",
         Part.toolInvocation { toolName := "websiteSearchTool", toolCallId := "t1", payload := "p" }],
       attachments := [{ name := "scan.pdf" }] } : Message).role = Role.user
    ∧ toolInvocationParts
        { id := "u2", role := Role.user, content := "hi",
          parts := [Part.text "hello", Part.reasoning "chain",
            Part.toolInvocation { toolName := "websiteSearchTool", toolCallId := "t1", payload := "p" }],
          attachments := [{ name := "scan.pdf" }] } = [] :=
  ⟨rfl, (c3_user_messages_display_no_reasoning_or_tools
    { id := "u2", role := Role.user, content := "hi",
      parts := [Part.text "hello", Part.reasoning "chain",
        Part.toolInvocation { toolName := "websiteSearchTool", toolCallId := "t1", payload := "p" }],
      attachments := [{ name := "scan.pdf" }] } rfl).1⟩

/-- Claim C4: rendering partitions the ordered part list into buckets by
tag, each bucket an order-preserving subsequence of the part list, and
emits the buckets in the fixed order text, reasoning, sources,
attachments, tools; the partition is idempotent and re-rendering equal
message lists reproduces the identical view. -/
theorem c4_fixed_render_order (m : Message) :
    renderMessage m =
      renderTextViews m ++ renderReasoningViews m ++ renderSourceViews m
        ++ renderAttachmentViews m ++ renderToolViews m
    ∧ List.Sublist (textParts m) m.parts
    ∧ List.Sublist (reasoningParts m) m.parts
    ∧ List.Sublist (sourceParts m) m.parts
    ∧ List.Sublist (toolInvocationParts m) m.parts
    ∧ (textParts m).filter isText = textParts m
    ∧ (reasoningParts m).filter isReasoning = reasoningParts m
    ∧ (sourceParts m).filter isSource = sourceParts m
    ∧ (toolInvocationParts m).filter isToolInvocation = toolInvocationParts m
    ∧ (∀ l₁ l₂ : List Message, l₁ = l₂ → renderMessages l₁ = renderMessages l₂) := by
  refine ⟨rfl, List.filter_sublist _, List.filter_sublist _, List.filter_sublist _,
    ?_, filter_idem _ _, filter_idem _ _, filter_idem _ _, ?_, ?_⟩
  · unfold toolInvocationParts
    split
    · exact List.nil_sublist _
    · exact List.filter_sublist _
  · unfold toolInvocationParts
    split
    · rfl
    · exact filter_idem _ _
  · intro l₁ l₂ hl
    rw [hl]

/-- Witness for C4 at a concrete mixed message. -/
theorem c4_fixed_render_order_witness :
    renderMessages
      [{ id := "a1", role := Role.assistant, content := "ans",
         parts := [Part.text "ans", Part.source "pubmed"], attachments := [] }] =
    renderMessages
      [{ id := "a1", role := Role.assistant, content := "ans",
         parts := [Part.text "ans", Part.source "pubmed"], attachments := [] }] :=
  (c4_fixed_render_order
    { id := "a1", role := Role.assistant, content := "ans",
      parts := [Part.text "ans", Part.source "pubmed"],
      attachments := [] }).2.2.2.2.2.2.2.2.2 _ _ rfl

/-- Claim C6: a settings change writes the local optimistic value first
and only then issues the persist call; applying the handler events leaves
the local value at the new setting, and resolution of the persist call
never changes the local value, so the UI shows the new value while the
call is in flight and it is not rolled back on success. -/
theorem c6_optimistic_settings (newValue currentOption currentModelType : String)
    (s : LocalSettings) :
    handleModelTypeChange newValue currentOption =
      [SettingsEvent.setLocalModelType newValue,
       SettingsEvent.persistCall newValue currentOption]
    ∧ (applySettingsEvent s (SettingsEvent.setLocalModelType newValue)).modelType = newValue
    ∧ (∀ b : Bool, applySettingsEvent s (SettingsEvent.persistResolved b) = s)
    ∧ ((handleModelTypeChange newValue currentOption).foldl
        applySettingsEvent s).modelType = newValue
    ∧ handleOptionChange newValue currentModelType =
      [SettingsEvent.setLocalOption newValue,
       SettingsEvent.persistCall currentModelType newValue]
    ∧ (applySettingsEvent s (SettingsEvent.setLocalOption newValue)).option = newValue
    ∧ ((handleOptionChange newValue currentModelType).foldl
        applySettingsEvent s).option = newValue :=
  ⟨rfl, rfl, fun _ => rfl, rfl, rfl, rfl, rfl⟩

/-- Claim C7: tool invocations are dispatched by name to exactly one
renderer each, and every unrecognized tool name renders nothing and is
silently dropped from the tool section. -/
theorem c7_tool_name_dispatch :
    (∀ inv : ToolInvocation, inv.toolName = "searchUserDocument" →
        dispatchTool inv = some (ToolView.documentSearch inv))
    ∧ (∀ inv : ToolInvocation, inv.toolName = "websiteSearchTool" →
        dispatchTool inv = some (ToolView.websiteSearch inv))
    ∧ (∀ inv : ToolInvocation, inv.toolName ≠ "searchUserDocument" →
        inv.toolName ≠ "websiteSearchTool" → dispatchTool inv = none)
    ∧ (∀ (inv : ToolInvocation) (l : List ToolInvocation),
        dispatchTool inv = none →
        renderToolInvocations (inv :: l) = renderToolInvocations l) := by
  refine ⟨?_, ?_, ?_, ?_⟩
  · intro inv h
    simp [dispatchTool, h]
  · intro inv h
    simp [dispatchTool, h]
  · intro inv h1 h2
    simp [dispatchTool, h1, h2]
  · intro inv l h
    simp [renderToolInvocations, List.filterMap_cons, h]

/-- Witness for C7 at the document-search tool name. -/
theorem c7_tool_name_dispatch_witness :
    ({ toolName := "searchUserDocument", toolCallId := "t1", payload := "p" } :
        ToolInvocation).toolName = "searchUserDocument"
    ∧ dispatchTool { toolName := "searchUserDocument", toolCallId := "t1", payload := "p" } =
        some (ToolView.documentSearch
          { toolName := "searchUserDocument", toolCallId := "t1", payload := "p" }) :=
  ⟨rfl, c7_tool_name_dispatch.1 _ rfl⟩

/-- Claim C8: triggering copy writes exactly the message content to the
clipboard and sets the confirmation indicator at once, and the indicator
reverts when the scheduled timer fires at the fixed delay, whatever other
user actions happen during the window: no action cancels the timer. -/
theorem c8_copy_reverts_after_delay (s : CopyState) (t : Nat) (c : String)
    (actions : List (Nat × UserAction))
    (hw : ∀ p ∈ actions, t < p.1 ∧ p.1 < t + copyDelayMs) :
    (handleCopy t c s).clipboard = some c
    ∧ (handleCopy t c s).isCopied = true
    ∧ (fireTimers (t + copyDelayMs)
        (runWindow (handleCopy t c s) actions)).isCopied = false := by
  refine ⟨rfl, rfl, ?_⟩
  have hmem : (t + copyDelayMs) ∈ (runWindow (handleCopy t c s) actions).timers := by
    apply timer_survives (t + copyDelayMs) actions (fun p hp => (hw p hp).2)
    simp [handleCopy]
  unfold fireTimers
  have hc : ((runWindow (handleCopy t c s) actions).timers.any
      (fun tm => decide (tm ≤ t + copyDelayMs))) = true := by
    apply List.any_eq_true.mpr
    exact ⟨_, hmem, by simp⟩
  simp [hc]

/-- Witness for C8: copy at time 0 with a theme toggle inside the window;
the indicator is off again when the timer fires at the delay. -/
theorem c8_copy_reverts_witness :
    (∀ p ∈ [((500 : Nat), UserAction.toggleTheme)], 0 < p.1 ∧ p.1 < 0 + copyDelayMs)
    ∧ (fireTimers (0 + copyDelayMs)
        (runWindow (handleCopy 0 "hello" { clipboard := none, isCopied := false, timers := [] })
          [((500 : Nat), UserAction.toggleTheme)])).isCopied = false :=
  ⟨by decide,
    (c8_copy_reverts_after_delay { clipboard := none, isCopied := false, timers := [] }
      0 "hello" [((500 : Nat), UserAction.toggleTheme)] (by decide)).2.2⟩

/-- Claim C9: an input that is empty or all whitespace trims to the empty
string, so the form submit handler performs no stream submission, the
Enter-key path performs none either, and the send button is disabled for
such input as well as whenever a response is loading. -/
theorem c9_blank_input_never_submits (input : String)
    (h : input.toList.all jsIsWhitespace = true) :
    jsTrim input = ""
    ∧ onSubmit input = [SubmitEffect.preventDefault]
    ∧ (∀ e : KeyEvent, SubmitEffect.streamSubmit ∉ onKeyDown input e)
    ∧ (∀ loading : Bool, sendButtonDisabled input loading = true)
    ∧ (∀ str : String, sendButtonDisabled str true = true) := by
  have ht := jsTrim_blank input h
  refine ⟨ht, ?_, ?_, ?_, ?_⟩
  · simp [onSubmit, ht]
  · intro e
    simp only [onKeyDown, onSubmit, ht, ne_eq, not_true_eq_false, if_false]
    split
    · simp
    · simp
  · intro loading
    simp [sendButtonDisabled, ht]
  · intro str
    simp [sendButtonDisabled]

/-- Witness for C9 at a whitespace-only input. -/
theorem c9_blank_input_witness :
    (" \t\n".toList.all jsIsWhitespace = true)
    ∧ onSubmit " \t\n" = [SubmitEffect.preventDefault] :=
  ⟨by decide, (c9_blank_input_never_submits " \t\n" (by decide)).2.1⟩

/-- Claim C10: the copy confirmation is one component-wide boolean, not
per-message state: the indicator a button shows does not depend on the
message, copying from any one message turns the indicator of every
assistant message on, the timer revert turns it off for all of them, and
a copy therefore changes the indicator of every other assistant message
too. -/
theorem c10_copy_indicator_shared (s : CopyState) (t : Nat) (c : String)
    (msgs : List Message) :
    (∀ m m' : Message, copyIndicator s m = copyIndicator s m')
    ∧ messageIndicators (handleCopy t c s) msgs =
        msgs.map (fun m => if m.role = Role.assistant then some true else none)
    ∧ messageIndicators (fireTimers (t + copyDelayMs) (handleCopy t c s)) msgs =
        msgs.map (fun m => if m.role = Role.assistant then some false else none)
    ∧ (s.isCopied = false →
        messageIndicators s msgs =
          msgs.map (fun m => if m.role = Role.assistant then some false else none)) := by
  refine ⟨fun m m' => rfl, ?_, ?_, ?_⟩
  · simp [messageIndicators, handleCopy]
  · have hfire : (fireTimers (t + copyDelayMs) (handleCopy t c s)).isCopied = false := by
      have hc : ((s.timers ++ [t + copyDelayMs]).any
          (fun tm => decide (tm ≤ t + copyDelayMs))) = true := by
        apply List.any_eq_true.mpr
        exact ⟨t + copyDelayMs, List.mem_append_right _ (List.mem_singleton.mpr rfl), by simp⟩
      simp [fireTimers, handleCopy, hc]
    simp [messageIndicators, hfire]
  · intro h
    simp [messageIndicators, h]

/-- Witness for C10: with the indicator off, the single assistant message
shows the unconfirmed indicator. -/
theorem c10_copy_indicator_witness :
    (({ clipboard := none, isCopied := false, timers := [] } : CopyState).isCopied = false)
    ∧ messageIndicators { clipboard := none, isCopied := false, timers := [] }
        [{ id := "a1", role := Role.assistant, content := "ans", parts := [],
           attachments := [] }] = [some false] :=
  ⟨rfl,
    (c10_copy_indicator_shared { clipboard := none, isCopied := false, timers := [] }
      0 "x"
      [{ id := "a1", role := Role.assistant, content := "ans", parts := [],
         attachments := [] }]).2.2.2 rfl⟩

end MDEvidence
